import Mathlib

/-!
Verification of the DL/T 645-2007 protocol engine
(esphome-component-dlt645, src/dlt645.cpp / src/dlt645.h).

The engine's pure protocol logic is shallowly embedded: machine bytes are
`Nat` values with explicit `% 256` where the C++ `uint8_t` arithmetic wraps,
`float` results of the BCD codec are modelled by exact rationals (the decode
computes an integer and divides by a power of ten; no rounding behaviour is
claimed), and the stateful scheduler / retry governor are modelled as
explicit state-passing functions.  Each definition is translated from the
named C++ function.
-/

set_option maxRecDepth 100000

namespace DLT645

/-- Bit-arithmetic bridge: a bitwise or of a value below `2 ^ n` with a value
shifted left by `n` is plain addition (the C++ code assembles the 4-byte data
identifier with `|` and `<<`). -/
theorem lor_shl_eq_add (n a b : Nat) (h : b < 2 ^ n) :
    b ||| (a <<< n) = a * 2 ^ n + b := by
  apply Nat.eq_of_testBit_eq
  intro j
  rw [Nat.testBit_lor, Nat.testBit_shiftLeft,
      show a * 2 ^ n + b = 2 ^ n * a + b by ring,
      Nat.testBit_mul_pow_two_add a h j]
  by_cases hc : j < n
  · simp [hc, Nat.not_le.mpr hc]
  · have hb : b.testBit j = false :=
      Nat.testBit_lt_two_pow
        (lt_of_lt_of_le h (Nat.pow_le_pow_right (by norm_num) (Nat.le_of_not_lt hc)))
    simp [hc, hb, Nat.le_of_not_lt hc]

/-! ## Data scrambling (src/dlt645.cpp, `scramble_dlt645_data` /
`unscramble_dlt645_data`, lines 1368-1381).
`data[i] += 0x33` and `data[i] -= 0x33` act on `uint8_t`, i.e. modulo 256. -/

/-- One byte of `scramble_dlt645_data`: `b += 0x33` on `uint8_t`. -/
def scrambleByte (b : Nat) : Nat := (b + 0x33) % 256

/-- One byte of `unscramble_dlt645_data`: `b -= 0x33` on `uint8_t`
(wrapping subtraction, i.e. adding `256 - 0x33` modulo 256). -/
def unscrambleByte (b : Nat) : Nat := (b + (256 - 0x33)) % 256

/-- `scramble_dlt645_data`: adds 0x33 to every data byte (mod 256). -/
def scramble_dlt645_data (data : List Nat) : List Nat := data.map scrambleByte

/-- `unscramble_dlt645_data`: subtracts 0x33 from every data byte (mod 256). -/
def unscramble_dlt645_data (data : List Nat) : List Nat := data.map unscrambleByte

/-! ## BCD numeric codec (src/dlt645.cpp, `bcd_to_float` lines 1384-1406,
`bcd_to_float_with_sign` lines 1408-1429).

`bcd_to_float` walks the bytes low-to-high, takes the low nibble then the high
nibble of each byte with an increasing power-of-ten multiplier, returns 0.0f
as soon as a nibble exceeds 9, and finally divides by `10 ^ decimal_places`.
The accumulator is modelled as `Nat` (the meter payloads are at most 4 bytes,
well inside `uint32_t`), the result as an exact rational. -/

/-- Integer accumulation loop of `bcd_to_float`; `none` models the early
`return 0.0f` on an invalid BCD nibble. -/
def bcdIntValue : List Nat → Option Nat
  | [] => some 0
  | b :: rest =>
    let lowNibble := b % 16
    let highNibble := (b / 16) % 16
    if lowNibble > 9 ∨ highNibble > 9 then none
    else (bcdIntValue rest).map (fun v => lowNibble + 10 * highNibble + 100 * v)

/-- `bcd_to_float(bcd_data, decimal_places)`: decode unsigned BCD and divide
by `10 ^ decimal_places`; any invalid nibble makes the whole result 0. -/
def bcd_to_float (bcdData : List Nat) (decimalPlaces : Nat) : ℚ :=
  match bcdIntValue bcdData with
  | none => 0
  | some v => (v : ℚ) / 10 ^ decimalPlaces

/-- `bcd_to_float_with_sign(bcd_data, decimal_places)`: empty input yields 0;
otherwise the top bit of the last byte is the sign, it is cleared, the
magnitude is decoded by `bcd_to_float`, and the result is negated when the
sign bit was set. -/
def bcd_to_float_with_sign (bcdData : List Nat) (decimalPlaces : Nat) : ℚ :=
  if bcdData.isEmpty then 0
  else
    let isNegative := bcdData.getLastD 0 &&& 0x80 ≠ 0
    let cleanBcdData := bcdData.dropLast ++ [bcdData.getLastD 0 &&& 0x7F]
    let result := bcd_to_float cleanBcdData decimalPlaces
    if isNegative then -result else result

/-! ## Request types (src/dlt645.h, `DLT645_REQUEST_TYPE`, lines 54-78). -/

def READ_POS_START : Nat := 0x01
def READ_DEVICE_ADDRESS : Nat := 0x01
def READ_ACTIVE_POWER_TOTAL : Nat := 0x02
def READ_ENERGY_ACTIVE_TOTAL : Nat := 0x03
def READ_VOLTAGE_A_PHASE : Nat := 0x04
def READ_CURRENT_A_PHASE : Nat := 0x05
def READ_POWER_FACTOR_TOTAL : Nat := 0x06
def READ_FREQUENCY : Nat := 0x07
def READ_ENERGY_REVERSE_TOTAL : Nat := 0x08
def READ_DATE : Nat := 0x09
def READ_TIME : Nat := 0x0A
def READ_POS_END : Nat := 0x0A
def WRITE_DATE : Nat := 0x10
def WRITE_TIME : Nat := 0x11
def CONTROL_POS_START : Nat := 0x20
def CONTROL_BROADCAST_TIME_SYNC : Nat := 0x21
def CONTROL_RELAY_CONNECT : Nat := 0x22
def CONTROL_RELAY_DISCONNECT : Nat := 0x23

/-! ## Request scheduler (src/dlt645.cpp, `get_next_event_index`,
lines 2020-2050; member fields from src/dlt645.h lines 266-273). -/

/-- Scheduler state: the component fields read and written by
`get_next_event_index` (`device_address_discovered_`,
`total_power_query_count_`, `last_non_power_query_index_`, `power_ratio_`).
Counts and the ratio are C++ `int`, modelled as `Int`. -/
structure SchedState where
  discovered : Bool
  totalPowerQueryCount : Int
  lastNonPowerQueryIndex : Nat
  powerRatio : Int
deriving DecidableEq

/-- `get_next_event_index()`: returns the next request type and the updated
scheduler state.  Until the address is discovered it always returns
`READ_DEVICE_ADDRESS`; afterwards it repeats the total-power query
`power_ratio_ - 1` times, then emits the rotation cursor and advances it,
wrapping from `READ_POS_END` back to `READ_VOLTAGE_A_PHASE`. -/
def get_next_event_index (s : SchedState) : Nat × SchedState :=
  if s.discovered = false then (READ_DEVICE_ADDRESS, s)
  else
    let cnt := s.totalPowerQueryCount + 1
    if cnt < s.powerRatio then
      (READ_ACTIVE_POWER_TOTAL, { s with totalPowerQueryCount := cnt })
    else
      let nextRequestType := s.lastNonPowerQueryIndex
      let nextIndex := s.lastNonPowerQueryIndex + 1
      let nextIndex' := if nextIndex ≥ READ_POS_END then READ_VOLTAGE_A_PHASE else nextIndex
      (nextRequestType, { s with totalPowerQueryCount := 0, lastNonPowerQueryIndex := nextIndex' })

/-- Successive outputs of `n` scheduler calls. -/
def schedRun : Nat → SchedState → List Nat
  | 0, _ => []
  | n + 1, s =>
    let r := get_next_event_index s
    r.1 :: schedRun n r.2

/-- Component defaults (src/dlt645.h lines 266-273): address undiscovered,
count 0, rotation cursor at `READ_ENERGY_ACTIVE_TOTAL`, ratio 10. -/
def initialSchedState : SchedState :=
  { discovered := false
    totalPowerQueryCount := 0
    lastNonPowerQueryIndex := READ_ENERGY_ACTIVE_TOTAL
    powerRatio := 10 }

/-- The scheduler state on entry to steady state with the default ratio
`N = 10`: as `initialSchedState` but with the address discovered. -/
def steadySchedState : SchedState :=
  { initialSchedState with discovered := true }

/-- Reachable scheduler states: the initial state (under any configured
`power_ratio_`), closed under scheduler calls and under the address-discovery
side effect (`device_address_discovered_ = true`). -/
inductive SchedReachable : SchedState → Prop where
  | init (r : Int) :
      SchedReachable
        { discovered := false
          totalPowerQueryCount := 0
          lastNonPowerQueryIndex := READ_ENERGY_ACTIVE_TOTAL
          powerRatio := r }
  | step (s : SchedState) : SchedReachable s → SchedReachable (get_next_event_index s).2
  | discover (s : SchedState) : SchedReachable s → SchedReachable { s with discovered := true }

/-- The rotation cursor of every reachable scheduler state stays between
`READ_ENERGY_ACTIVE_TOTAL` (0x03) and `READ_DATE` (0x09). -/
theorem schedReachable_cursor_range (s : SchedState) (h : SchedReachable s) :
    READ_ENERGY_ACTIVE_TOTAL ≤ s.lastNonPowerQueryIndex ∧
      s.lastNonPowerQueryIndex ≤ READ_DATE := by
  induction h with
  | init r => exact ⟨le_refl _, by norm_num [READ_ENERGY_ACTIVE_TOTAL, READ_DATE]⟩
  | step t ht ih =>
    unfold get_next_event_index
    rcases ih with ⟨ih1, ih2⟩
    by_cases hd : t.discovered = false
    · simp [hd]; exact ⟨ih1, ih2⟩
    · simp only [hd, if_false]
      by_cases hc : t.totalPowerQueryCount + 1 < t.powerRatio
      · simp only [hc, if_true]; exact ⟨ih1, ih2⟩
      · simp only [hc, if_false]
        by_cases hw : t.lastNonPowerQueryIndex + 1 ≥ READ_POS_END
        · simp only [hw, if_true]
          norm_num [READ_VOLTAGE_A_PHASE, READ_ENERGY_ACTIVE_TOTAL, READ_DATE]
        · simp only [hw, if_false]
          revert ih1 ih2 hw
          norm_num [READ_ENERGY_ACTIVE_TOTAL, READ_DATE, READ_POS_END]
          omega
  | discover t ht ih => exact ih

/-- The non-power request pattern actually produced by 1000 steady-state
scheduler calls with the default ratio: nine power reads then one rotation
slot; the rotation emits energy once (first pass) and thereafter cycles
through the six identifiers voltage..date. -/
def expectedSteadyRun : List Nat :=
  (List.range 100).flatMap
    (fun m => List.replicate 9 READ_ACTIVE_POWER_TOTAL ++
      [if m = 0 then READ_ENERGY_ACTIVE_TOTAL else READ_VOLTAGE_A_PHASE + (m - 1) % 6])

/-- C1 (counterexample): over 1000 consecutive scheduler calls from the
steady-state entry with ratio `N = 10`, the `READ_TIME` descriptor is never
returned even though 100 of the calls are non-power calls — so the rotation
does not visit all 8 remaining identifiers before repeating. -/
theorem c1_time_never_scheduled :
    (READ_TIME ∈ schedRun 1000 steadySchedState) = False ∧
      (schedRun 1000 steadySchedState).countP (fun o => o != READ_ACTIVE_POWER_TOTAL) = 100 := by
  constructor
  · decide
  · decide

/-- C1 (amended): over the first 1000 steady-state scheduler calls with
`N = 10`, every 10th call (and only those) returns a non-power descriptor —
100 of the 1000 calls — and the non-power descriptors are energy on the first
rotation slot followed by the six identifiers voltage, current, power factor,
frequency, reverse energy, date repeating cyclically; time is never returned
and energy never recurs. -/
theorem c1_steady_state_rotation :
    schedRun 1000 steadySchedState = expectedSteadyRun := by
  decide

/-- C10: from every reachable scheduler state, `get_next_event_index` returns
a read-class request type (between `READ_POS_START` 0x01 and `READ_POS_END`
0x0A); it never returns a write-class (0x10-0x11) or control-class
(0x20-0x23) request type. -/
theorem c10_scheduler_only_reads (s : SchedState) (h : SchedReachable s) :
    READ_POS_START ≤ (get_next_event_index s).1 ∧
      (get_next_event_index s).1 ≤ READ_POS_END ∧
      (get_next_event_index s).1 ≠ WRITE_DATE ∧
      (get_next_event_index s).1 ≠ WRITE_TIME ∧
      ¬(CONTROL_POS_START ≤ (get_next_event_index s).1 ∧
        (get_next_event_index s).1 ≤ CONTROL_RELAY_DISCONNECT) := by
  have hcur := schedReachable_cursor_range s h
  unfold get_next_event_index
  by_cases hd : s.discovered = false
  · simp [hd, READ_DEVICE_ADDRESS, READ_POS_START, READ_POS_END, WRITE_DATE, WRITE_TIME,
      CONTROL_POS_START, CONTROL_RELAY_DISCONNECT]
  · simp only [hd, if_false]
    by_cases hc : s.totalPowerQueryCount + 1 < s.powerRatio
    · simp [hc, READ_ACTIVE_POWER_TOTAL, READ_POS_START, READ_POS_END, WRITE_DATE, WRITE_TIME,
        CONTROL_POS_START, CONTROL_RELAY_DISCONNECT]
    · simp only [hc, if_false]
      revert hcur
      norm_num [READ_ENERGY_ACTIVE_TOTAL, READ_DATE, READ_POS_START, READ_POS_END,
        WRITE_DATE, WRITE_TIME, CONTROL_POS_START, CONTROL_RELAY_DISCONNECT]
      omega

/-- C10 witness: the theorem applied at the initial scheduler state with the
default ratio. -/
theorem c10_scheduler_only_reads_witness :
    READ_POS_START ≤ (get_next_event_index initialSchedState).1 ∧
      (get_next_event_index initialSchedState).1 ≤ READ_POS_END ∧
      (get_next_event_index initialSchedState).1 ≠ WRITE_DATE ∧
      (get_next_event_index initialSchedState).1 ≠ WRITE_TIME ∧
      ¬(CONTROL_POS_START ≤ (get_next_event_index initialSchedState).1 ∧
        (get_next_event_index initialSchedState).1 ≤ CONTROL_RELAY_DISCONNECT) :=
  c10_scheduler_only_reads initialSchedState (SchedReachable.init 10)

/-- C9: scrambling adds 0x33 modulo 256, unscrambling subtracts 0x33 modulo
256, and unscrambling a scrambled byte returns the original for every byte
value 0x00-0xFF (wraparound included); likewise over whole data fields. -/
theorem c9_scramble_unscramble_identity (x : Nat) (h : x < 256) :
    unscrambleByte (scrambleByte x) = x ∧
      scrambleByte x = (x + 0x33) % 256 ∧
      unscrambleByte x = (x + (256 - 0x33)) % 256 ∧
      ∀ data : List Nat, (∀ b ∈ data, b < 256) →
        unscramble_dlt645_data (scramble_dlt645_data data) = data := by
  refine ⟨?_, rfl, rfl, ?_⟩
  · unfold scrambleByte unscrambleByte
    omega
  · intro data hdata
    unfold unscramble_dlt645_data scramble_dlt645_data
    rw [List.map_map]
    conv_rhs => rw [← List.map_id data]
    apply List.map_congr_left
    intro b hb
    have hb' := hdata b hb
    simp only [Function.comp_apply, id_eq]
    unfold scrambleByte unscrambleByte
    omega

/-- C9 witness: the identity at the wraparound byte 0xFF and on the data
field [0x00, 0xFF]. -/
theorem c9_scramble_unscramble_identity_witness :
    unscrambleByte (scrambleByte 0xFF) = 0xFF ∧
      scrambleByte 0xFF = (0xFF + 0x33) % 256 ∧
      unscrambleByte 0xFF = (0xFF + (256 - 0x33)) % 256 ∧
      ∀ data : List Nat, (∀ b ∈ data, b < 256) →
        unscramble_dlt645_data (scramble_dlt645_data data) = data :=
  c9_scramble_unscramble_identity 0xFF (by decide)

/-- C8: the signed BCD decoder takes the sign from the top bit of the last
byte, clears that bit, decodes the magnitude with the unsigned decoder, and
negates exactly when the sign bit was set; in particular
`bcd_to_float_with_sign [0x12, 0x34, 0x85] 2` is the negation of
`bcd_to_float [0x12, 0x34, 0x05] 2`. -/
theorem c8_bcd_signed_decode (bcdData : List Nat) (d : Nat) (h : bcdData ≠ []) :
    bcd_to_float_with_sign bcdData d =
      (if bcdData.getLastD 0 &&& 0x80 ≠ 0
       then -(bcd_to_float (bcdData.dropLast ++ [bcdData.getLastD 0 &&& 0x7F]) d)
       else bcd_to_float (bcdData.dropLast ++ [bcdData.getLastD 0 &&& 0x7F]) d) ∧
      bcd_to_float_with_sign [0x12, 0x34, 0x85] 2 = -(bcd_to_float [0x12, 0x34, 0x05] 2) := by
  constructor
  · unfold bcd_to_float_with_sign
    rw [if_neg (by simpa [List.isEmpty_iff] using h)]
  · unfold bcd_to_float_with_sign bcd_to_float
    norm_num [bcdIntValue, show (133 &&& 128 : Nat) = 128 from by decide,
      show (133 &&& 127 : Nat) = 5 from by decide]

/-- C8 witness: the theorem applied at the concrete input
`[0x12, 0x34, 0x85]` with 2 decimal places. -/
theorem c8_bcd_signed_decode_witness :
    bcd_to_float_with_sign [0x12, 0x34, 0x85] 2 =
      (if [0x12, 0x34, 0x85].getLastD 0 &&& 0x80 ≠ 0
       then -(bcd_to_float ([0x12, 0x34, 0x85].dropLast ++ [[0x12, 0x34, 0x85].getLastD 0 &&& 0x7F]) 2)
       else bcd_to_float ([0x12, 0x34, 0x85].dropLast ++ [[0x12, 0x34, 0x85].getLastD 0 &&& 0x7F]) 2) ∧
      bcd_to_float_with_sign [0x12, 0x34, 0x85] 2 = -(bcd_to_float [0x12, 0x34, 0x05] 2) :=
  c8_bcd_signed_decode [0x12, 0x34, 0x85] 2 (by decide)

/-! ## Frame codec.

`check_and_parse_dlt645_frame` (src/dlt645.cpp lines 653-826) validates the
accumulated response buffer.  The C++ function acts by side effects (clearing
or keeping `response_buffer_` and dispatching the payload); the embedding
returns the decision as an explicit outcome.  `needMoreData` is the path that
returns with the buffer intact; every other outcome clears the buffer. -/

inductive ParseOutcome where
  | needMoreData : ParseOutcome
  | invalidPreamble : ParseOutcome
  | invalidAddressStart : ParseOutcome
  | meterReadError (code : Nat) : ParseOutcome
  | meterControlError (code : Nat) : ParseOutcome
  | unknownControlCode (code : Nat) : ParseOutcome
  | controlAck (dataLength : Nat) : ParseOutcome
  | invalidTrailer : ParseOutcome
  | badChecksum : ParseOutcome
  | complete (address : List Nat) (dataField : List Nat) : ParseOutcome
deriving DecidableEq

/-- The leading-0xFE skip loop of `check_and_parse_dlt645_frame`
(lines 666-669): index of the first byte that is not 0xFE. -/
def skipFE : List Nat → Nat
  | [] => 0
  | b :: rest => if b = 0xFE then skipFE rest + 1 else 0

/-- `check_and_parse_dlt645_frame()` on a response buffer.  Byte reads are
`getD` at the C++ indices; the checksum accumulator is a `uint8_t`, modelled
as the byte sum modulo 256. -/
def check_and_parse_dlt645_frame (buf : List Nat) : ParseOutcome :=
  let frameStart := skipFE buf
  if frameStart ≥ buf.length ∨ buf.getD frameStart 0 ≠ 0x68 then .invalidPreamble
  else if buf.length < frameStart + 12 then .needMoreData
  else if frameStart + 7 ≥ buf.length ∨ buf.getD (frameStart + 7) 0 ≠ 0x68 then
    .invalidAddressStart
  else
    let address := (buf.drop (frameStart + 1)).take 6
    let controlCode := buf.getD (frameStart + 8) 0
    let dataLength := buf.getD (frameStart + 9) 0
    if controlCode = 0xD1 ∨ controlCode = 0xB1 then .meterReadError controlCode
    else if controlCode = 0xDC ∨ controlCode = 0xBC then .meterControlError controlCode
    else if controlCode ≠ 0x91 ∧ controlCode ≠ 0x9C then .unknownControlCode controlCode
    else if controlCode = 0x9C then .controlAck dataLength
    else
      let frameTotalLength := frameStart + 10 + dataLength + 2
      if buf.length < frameTotalLength then .needMoreData
      else if buf.getD (frameTotalLength - 1) 0 ≠ 0x16 then .invalidTrailer
      else
        let calculatedChecksum := ((buf.drop frameStart).take (10 + dataLength)).sum % 256
        let receivedChecksum := buf.getD (frameStart + 10 + dataLength) 0
        if calculatedChecksum ≠ receivedChecksum then .badChecksum
        else .complete address (unscramble_dlt645_data ((buf.drop (frameStart + 10)).take dataLength))

/-- Data-identifier extraction from the unscrambled data field
(line 786): `data_field[0] | data_field[1] << 8 | data_field[2] << 16 |
data_field[3] << 24`. -/
def extract_data_identifier (dataField : List Nat) : Nat :=
  dataField.getD 0 0 ||| dataField.getD 1 0 <<< 8 |||
    dataField.getD 2 0 <<< 16 ||| dataField.getD 3 0 <<< 24

/-- `build_dlt645_read_frame(address, data_identifier)` (lines 845-915):
2 preamble bytes, start, up-to-6 address bytes, start, control 0x11, length
0x04, the 4 identifier bytes scrambled (+0x33 as `uint8_t`), checksum over
everything past the preamble, end delimiter. -/
def build_dlt645_read_frame (address : List Nat) (dataIdentifier : Nat) : List Nat :=
  let body := [0xFE, 0xFE, 0x68] ++ address.take 6 ++ [0x68, 0x11, 0x04] ++
    [((dataIdentifier &&& 0xFF) + 0x33) % 256,
     (((dataIdentifier >>> 8) &&& 0xFF) + 0x33) % 256,
     (((dataIdentifier >>> 16) &&& 0xFF) + 0x33) % 256,
     (((dataIdentifier >>> 24) &&& 0xFF) + 0x33) % 256]
  let checksum := (body.drop 2).sum % 256
  body ++ [checksum, 0x16]

/-- `build_dlt645_write_frame(address, data_identifier, write_data)`
(lines 947-1008): 4 preamble bytes, start, up-to-6 address bytes, start,
control 0x14, length `4 + |write_data|` (a `uint8_t`), scrambled identifier
and payload, checksum over everything past the preamble, end delimiter.
The function has no failure path: it returns a frame for every address. -/
def build_dlt645_write_frame (address : List Nat) (dataIdentifier : Nat)
    (writeData : List Nat) : List Nat :=
  let body := [0xFE, 0xFE, 0xFE, 0xFE, 0x68] ++ address.take 6 ++
    [0x68, 0x14, (4 + writeData.length) % 256] ++
    [((dataIdentifier &&& 0xFF) + 0x33) % 256,
     (((dataIdentifier >>> 8) &&& 0xFF) + 0x33) % 256,
     (((dataIdentifier >>> 16) &&& 0xFF) + 0x33) % 256,
     (((dataIdentifier >>> 24) &&& 0xFF) + 0x33) % 256] ++
    writeData.map (fun b => (b + 0x33) % 256)
  let checksum := (body.drop 4).sum % 256
  body ++ [checksum, 0x16]

/-- The guard of `set_datetime_action()` (lines 1593-1599) and
`set_time_action()` (lines 1634-1640): the action proceeds to build and send
a write frame only when a 6-byte address is stored whose first byte is
neither 0x99 nor 0xAA; otherwise it returns `false` without building. -/
def set_datetime_action_proceeds (storedAddress : List Nat) : Bool :=
  !(storedAddress.isEmpty ||
    (storedAddress.length == 6 &&
      (storedAddress.getD 0 0 == 0x99 || storedAddress.getD 0 0 == 0xAA)))

/-! ## Address observation (src/dlt645.cpp, tail of
`check_and_parse_dlt645_frame`, lines 793-822). -/

/-- The byte-for-byte comparison of lines 795-805: true when no 6-byte
address is stored or when any of the 6 bytes differs from the frame's
source address. -/
def addressChanged (stored address : List Nat) : Bool :=
  if stored.length ≠ 6 then true
  else (List.range 6).any (fun i => stored.getD i 0 != address.getD i 0)

/-- The address-observation step run on every successfully parsed frame
(lines 793-822): when the source address does not begin with the two bytes
0x99 0x99 and differs from the stored address, it is written into the
learned-address slot and `device_address_discovered_` is set to true; the
pair (stored address, discovered flag) is returned. -/
def observe_address (stored : List Nat) (discovered : Bool) (address : List Nat) :
    List Nat × Bool :=
  if address.getD 0 0 ≠ 0x99 ∨ address.getD 1 0 ≠ 0x99 then
    if addressChanged stored address then (address, true)
    else (stored, discovered)
  else (stored, discovered)

/-- C2 (counterexample): with a learned non-broadcast address stored, a
parsed frame whose source address is the broadcast pattern 0xAA repeated six
times IS written into the learned-address slot (and the discovered flag is
set): the observation step only filters addresses beginning 0x99 0x99. -/
theorem c2_observe_stores_aa_broadcast :
    observe_address [0x12, 0x34, 0x56, 0x78, 0x90, 0x12] true (List.replicate 6 0xAA)
      = (List.replicate 6 0xAA, true) := by
  decide

/-- C2 (amended): the observation step never stores an address whose first
two bytes are 0x99 0x99 (in particular never the 0x99-repeated broadcast
pattern) and leaves the discovered flag unchanged for those; the 0xAA
broadcast pattern is not filtered — whenever it differs from the stored
address it is written into the slot with `discovered = true`. -/
theorem c2_observe_filters_only_99 (stored : List Nat) (discovered : Bool)
    (address : List Nat) (h0 : address.getD 0 0 = 0x99) (h1 : address.getD 1 0 = 0x99) :
    observe_address stored discovered address = (stored, discovered) ∧
      (addressChanged stored (List.replicate 6 0xAA) = true →
        observe_address stored discovered (List.replicate 6 0xAA)
          = (List.replicate 6 0xAA, true)) := by
  constructor
  · unfold observe_address
    simp only [h0, h1]
    norm_num
  · intro hch
    unfold observe_address
    rw [if_pos (by decide), if_pos hch]

/-- C2 witness: the amended theorem applied at the initial state (stored
address 0xAA×6, undiscovered) observing the 0x99-repeated broadcast. -/
theorem c2_observe_filters_only_99_witness :
    observe_address (List.replicate 6 0xAA) false (List.replicate 6 0x99)
        = (List.replicate 6 0xAA, false) ∧
      (addressChanged (List.replicate 6 0xAA) (List.replicate 6 0xAA) = true →
        observe_address (List.replicate 6 0xAA) false (List.replicate 6 0xAA)
          = (List.replicate 6 0xAA, true)) :=
  c2_observe_filters_only_99 (List.replicate 6 0xAA) false (List.replicate 6 0x99)
    (by decide) (by decide)

/-! ## C3: broadcast write rejection. -/

/-- C3 (counterexample): the write-frame builder itself performs no broadcast
check — for the broadcast address 0x99×6 it returns a complete 25-byte write
frame (control 0x14, trailer 0x16) whose address field is the broadcast
pattern, instead of failing with an error. -/
theorem c3_write_builder_accepts_broadcast :
    (build_dlt645_write_frame (List.replicate 6 0x99) 0x04000101
        [0x19, 0x0A, 0x0A, 0x0F, 0x1E]).length = 25 ∧
      ((build_dlt645_write_frame (List.replicate 6 0x99) 0x04000101
        [0x19, 0x0A, 0x0A, 0x0F, 0x1E]).drop 5).take 6 = List.replicate 6 0x99 ∧
      (build_dlt645_write_frame (List.replicate 6 0x99) 0x04000101
        [0x19, 0x0A, 0x0A, 0x0F, 0x1E]).getD 12 0 = 0x14 ∧
      (build_dlt645_write_frame (List.replicate 6 0x99) 0x04000101
        [0x19, 0x0A, 0x0A, 0x0F, 0x1E]).getD 24 0 = 0x16 := by
  decide

/-- C3 (amended): for both broadcast patterns the builder
`build_dlt645_write_frame` still produces a frame addressed to the broadcast
address (control code 0x14 in place); the broadcast rejection is enforced
one level up, by the guard of `set_datetime_action` / `set_time_action`,
which returns false to the caller without invoking the builder. -/
theorem c3_broadcast_write_guard (address : List Nat) (di : Nat) (payload : List Nat)
    (h : address = List.replicate 6 0x99 ∨ address = List.replicate 6 0xAA) :
    set_datetime_action_proceeds address = false ∧
      ((build_dlt645_write_frame address di payload).drop 5).take 6 = address ∧
      (build_dlt645_write_frame address di payload).getD 12 0 = 0x14 := by
  have haddr6 : address.length = 6 := by rcases h with rfl | rfl <;> decide
  refine ⟨?_, ?_, ?_⟩
  · rcases h with rfl | rfl <;> decide
  · unfold build_dlt645_write_frame
    rcases h with rfl | rfl <;>
      simp [List.take_append_eq_append_take, List.drop_append_eq_append_drop]
  · unfold build_dlt645_write_frame
    rcases h with rfl | rfl <;> simp [List.getD]

/-- C3 witness: the amended theorem applied at the 0x99 broadcast pattern
with the datetime identifier and a 5-byte payload. -/
theorem c3_broadcast_write_guard_witness :
    set_datetime_action_proceeds (List.replicate 6 0x99) = false ∧
      ((build_dlt645_write_frame (List.replicate 6 0x99) 0x04000101
        [0x19, 0x0A, 0x0A, 0x0F, 0x1E]).drop 5).take 6 = List.replicate 6 0x99 ∧
      (build_dlt645_write_frame (List.replicate 6 0x99) 0x04000101
        [0x19, 0x0A, 0x0A, 0x0F, 0x1E]).getD 12 0 = 0x14 :=
  c3_broadcast_write_guard (List.replicate 6 0x99) 0x04000101
    [0x19, 0x0A, 0x0A, 0x0F, 0x1E] (Or.inl rfl)

/-! ## C4: read-frame / parser round trip. -/

/-- A list of length 6 is a 6-element literal. -/
theorem length_six_exists (l : List Nat) (h : l.length = 6) :
    ∃ a b c d e f, l = [a, b, c, d, e, f] := by
  rcases l with _ | ⟨a, l⟩; · simp at h
  rcases l with _ | ⟨b, l⟩; · simp at h
  rcases l with _ | ⟨c, l⟩; · simp at h
  rcases l with _ | ⟨d, l⟩; · simp at h
  rcases l with _ | ⟨e, l⟩; · simp at h
  rcases l with _ | ⟨f, l⟩; · simp at h
  rcases l with _ | ⟨g, l⟩
  · exact ⟨a, b, c, d, e, f, rfl⟩
  · simp at h

/-- Unscrambling undoes the builder-side `+ 0x33` wrap for any byte. -/
theorem unscrambleByte_scrambled (x : Nat) (h : x < 256) :
    unscrambleByte ((x + 0x33) % 256) = x := by
  unfold unscrambleByte
  omega

/-- Masking with 0xFF is reduction modulo 256. -/
theorem and_255_eq_mod (x : Nat) : x &&& 0xFF = x % 256 := by
  have := Nat.and_pow_two_sub_one_eq_mod x 8
  norm_num at this
  exact this

/-- Reassembling the four little-endian bytes of a 32-bit identifier with the
shifts and ors of line 786 recovers the identifier. -/
theorem extract_di_bytes (di : Nat) (hdi : di < 2 ^ 32) :
    extract_data_identifier
      [di &&& 0xFF, (di >>> 8) &&& 0xFF, (di >>> 16) &&& 0xFF, (di >>> 24) &&& 0xFF] = di := by
  unfold extract_data_identifier
  simp only [List.getD_cons_zero, List.getD_cons_succ]
  rw [and_255_eq_mod, and_255_eq_mod, and_255_eq_mod, and_255_eq_mod,
    Nat.shiftRight_eq_div_pow, Nat.shiftRight_eq_div_pow, Nat.shiftRight_eq_div_pow]
  rw [lor_shl_eq_add 8 (di / 2 ^ 8 % 256) (di % 256) (by omega)]
  rw [lor_shl_eq_add 16 (di / 2 ^ 16 % 256) _ (by omega)]
  rw [lor_shl_eq_add 24 (di / 2 ^ 24 % 256) _ (by omega)]
  norm_num
  omega

/-- C4 (counterexample): feeding the bytes built by
`build_dlt645_read_frame` for a concrete unicast address and the total-power
identifier into `check_and_parse_dlt645_frame` does not yield a parsed
(Complete) frame — the parser rejects the request's control code 0x11. -/
theorem c4_parse_rejects_built_read_frame :
    check_and_parse_dlt645_frame
        (build_dlt645_read_frame [0x12, 0x90, 0x78, 0x56, 0x34, 0x12] 0x02030000)
      = ParseOutcome.unknownControlCode 0x11 := by
  decide

/-- C4 (amended): for every 6-byte address and 32-bit identifier, the parser
rejects the built read frame with `unknownControlCode 0x11` (it accepts only
the response control codes 0x91/0x9C); the frame is nonetheless structurally
sound: length byte 0x04 (identifier-only request payload), trailing 0x16,
checksum byte equal to the mod-256 sum of the checksummed region, and
unscrambling its 4 data bytes recovers exactly the identifier. -/
theorem c4_read_frame_structure (address : List Nat) (di : Nat)
    (haddr : address.length = 6) (hdi : di < 2 ^ 32) :
    check_and_parse_dlt645_frame (build_dlt645_read_frame address di)
        = ParseOutcome.unknownControlCode 0x11 ∧
      (build_dlt645_read_frame address di).getD 11 0 = 0x04 ∧
      (build_dlt645_read_frame address di).getD 17 0 = 0x16 ∧
      (((build_dlt645_read_frame address di).drop 2).take 14).sum % 256
          = (build_dlt645_read_frame address di).getD 16 0 ∧
      extract_data_identifier
          (unscramble_dlt645_data (((build_dlt645_read_frame address di).drop 12).take 4))
        = di := by
  obtain ⟨a, b, c, d, e, f, rfl⟩ := length_six_exists address haddr
  refine ⟨?_, ?_, ?_, ?_, ?_⟩
  · simp [build_dlt645_read_frame, check_and_parse_dlt645_frame, skipFE, List.getD]
  · simp [build_dlt645_read_frame, List.getD]
  · simp [build_dlt645_read_frame, List.getD]
  · simp [build_dlt645_read_frame, List.getD]
  · have h0 : di &&& 0xFF < 256 := by rw [and_255_eq_mod]; omega
    have h8 : (di >>> 8) &&& 0xFF < 256 := by rw [and_255_eq_mod]; omega
    have h16 : (di >>> 16) &&& 0xFF < 256 := by rw [and_255_eq_mod]; omega
    have h24 : (di >>> 24) &&& 0xFF < 256 := by rw [and_255_eq_mod]; omega
    have hfield :
        ((build_dlt645_read_frame [a, b, c, d, e, f] di).drop 12).take 4
          = [((di &&& 0xFF) + 0x33) % 256, (((di >>> 8) &&& 0xFF) + 0x33) % 256,
             (((di >>> 16) &&& 0xFF) + 0x33) % 256, (((di >>> 24) &&& 0xFF) + 0x33) % 256] := by
      simp [build_dlt645_read_frame]
    rw [hfield]
    unfold unscramble_dlt645_data
    simp only [List.map_cons, List.map_nil]
    rw [unscrambleByte_scrambled _ h0, unscrambleByte_scrambled _ h8,
      unscrambleByte_scrambled _ h16, unscrambleByte_scrambled _ h24]
    exact extract_di_bytes di hdi

/-- C4 witness: the amended theorem at the concrete unicast address
12 90 78 56 34 12 and the total-active-power identifier. -/
theorem c4_read_frame_structure_witness :
    check_and_parse_dlt645_frame
        (build_dlt645_read_frame [0x12, 0x90, 0x78, 0x56, 0x34, 0x12] 0x02030000)
        = ParseOutcome.unknownControlCode 0x11 ∧
      (build_dlt645_read_frame [0x12, 0x90, 0x78, 0x56, 0x34, 0x12] 0x02030000).getD 11 0 = 0x04 ∧
      (build_dlt645_read_frame [0x12, 0x90, 0x78, 0x56, 0x34, 0x12] 0x02030000).getD 17 0 = 0x16 ∧
      (((build_dlt645_read_frame [0x12, 0x90, 0x78, 0x56, 0x34, 0x12] 0x02030000).drop 2).take 14).sum % 256
          = (build_dlt645_read_frame [0x12, 0x90, 0x78, 0x56, 0x34, 0x12] 0x02030000).getD 16 0 ∧
      extract_data_identifier
          (unscramble_dlt645_data
            (((build_dlt645_read_frame [0x12, 0x90, 0x78, 0x56, 0x34, 0x12] 0x02030000).drop 12).take 4))
        = 0x02030000 :=
  c4_read_frame_structure [0x12, 0x90, 0x78, 0x56, 0x34, 0x12] 0x02030000 (by decide) (by decide)

/-! ## C5: single byte flips in well-formed frames.

A well-formed response frame (spec data model: 0-n bytes of 0xFE preamble,
start 0x68, 6-byte address, second 0x68, control code, length byte `L`,
`L` data bytes, checksum, end 0x16) parametrised by its pieces. -/

/-- Wire bytes of a response frame with the given preamble length, address,
control code, data field and checksum byte; the length byte is the data
field's length, the trailer is 0x16. -/
def mkResponseFrame (p : Nat) (address : List Nat) (controlCode : Nat)
    (data : List Nat) (checksum : Nat) : List Nat :=
  List.replicate p 0xFE ++
    0x68 :: ((address ++ [0x68, controlCode, data.length]) ++ (data ++ [checksum, 0x16]))

/-- The correct checksum of such a frame: the mod-256 sum of all bytes from
the first 0x68 through the last data byte (the region summed by
`check_and_parse_dlt645_frame`). -/
def frameChecksum (address : List Nat) (controlCode : Nat) (data : List Nat) : Nat :=
  (0x68 + (address.sum + (0x68 + controlCode + data.length)) + data.sum) % 256

/-- The leading-0xFE skip stops right after the preamble. -/
theorem skipFE_replicate (p b : Nat) (hb : b ≠ 0xFE) (rest : List Nat) :
    skipFE (List.replicate p 0xFE ++ b :: rest) = p := by
  induction p with
  | zero => simp [skipFE, hb]
  | succ n ih => simp [List.replicate_succ, skipFE, ih]

/-- Reading past a replicated preamble indexes into the suffix. -/
theorem getD_replicate_append (p n x d : Nat) (rest : List Nat) (h : p ≤ n) :
    (List.replicate p x ++ rest).getD n d = rest.getD (n - p) d := by
  rw [List.getD_append_right _ _ _ _ (by simp; omega), List.length_replicate]

/-- Dropping the replicated preamble leaves the suffix. -/
theorem drop_replicate_append (p x : Nat) (rest : List Nat) :
    (List.replicate p x ++ rest).drop p = rest := by
  have h := List.drop_left (List.replicate p x) rest
  rwa [List.length_replicate] at h

/-- Master evaluation lemma: on a response frame with control code 0x91 and a
6-byte address, the parser checks the trailer then compares the mod-256 byte
sum with the checksum byte: it answers `badChecksum` when they differ and
`complete` with the address and unscrambled data field when they agree. -/
theorem parse_response91 (p : Nat) (address data : List Nat) (cs : Nat)
    (haddr : address.length = 6) :
    check_and_parse_dlt645_frame (mkResponseFrame p address 0x91 data cs) =
      if frameChecksum address 0x91 data = cs then
        ParseOutcome.complete address (unscramble_dlt645_data data)
      else ParseOutcome.badChecksum := by
  obtain ⟨buf, hbufdef⟩ : ∃ b, mkResponseFrame p address 0x91 data cs = b := ⟨_, rfl⟩
  rw [hbufdef]
  have hbuf : buf = List.replicate p 0xFE ++
      0x68 :: ((address ++ [0x68, 0x91, data.length]) ++ (data ++ [cs, 0x16])) := by
    rw [← hbufdef, mkResponseFrame]
  have hAlen : (address ++ [0x68, 0x91, data.length]).length = 9 := by simp [haddr]
  have hlen : buf.length = p + 12 + data.length := by
    rw [hbuf]; simp [haddr]; omega
  have hskip : skipFE buf = p := by
    rw [hbuf]; exact skipFE_replicate p 0x68 (by norm_num) _
  have hg : ∀ k r, p + k - p = r →
      buf.getD (p + k) 0 =
        (0x68 :: ((address ++ [0x68, 0x91, data.length]) ++ (data ++ [cs, 0x16]))).getD r 0 := by
    intro k r hr
    rw [hbuf, getD_replicate_append _ _ _ _ _ (by omega), hr]
  have h_0 : buf.getD p 0 = 0x68 := by
    have h := hg 0 0 (by omega)
    rw [Nat.add_zero] at h
    rw [h]
    simp
  have h_7 : buf.getD (p + 7) 0 = 0x68 := by
    rw [hg 7 7 (by omega), List.getD_cons_succ,
      List.getD_append _ _ _ _ (by rw [hAlen]; omega),
      List.getD_append_right _ _ _ _ (by rw [haddr]), haddr]
    simp
  have h_8 : buf.getD (p + 8) 0 = 0x91 := by
    rw [hg 8 8 (by omega), List.getD_cons_succ,
      List.getD_append _ _ _ _ (by rw [hAlen]; omega),
      List.getD_append_right _ _ _ _ (by rw [haddr]; omega), haddr]
    simp
  have h_9 : buf.getD (p + 9) 0 = data.length := by
    rw [hg 9 9 (by omega), List.getD_cons_succ,
      List.getD_append _ _ _ _ (by rw [hAlen]; omega),
      List.getD_append_right _ _ _ _ (by rw [haddr]; omega), haddr]
    simp
  have hrecv : buf.getD (p + 10 + data.length) 0 = cs := by
    have e : p + 10 + data.length = p + (10 + data.length) := by omega
    rw [e, hg (10 + data.length) (10 + data.length) (by omega),
      show 10 + data.length = (9 + data.length) + 1 from by omega, List.getD_cons_succ,
      List.getD_append_right _ _ _ _ (by rw [hAlen]; omega), hAlen,
      show 9 + data.length - 9 = data.length from by omega,
      List.getD_append_right _ _ _ _ (by omega),
      show data.length - data.length = 0 from by omega]
    simp
  have htrail : buf.getD (p + 10 + data.length + 2 - 1) 0 = 0x16 := by
    have e : p + 10 + data.length + 2 - 1 = p + (11 + data.length) := by omega
    rw [e, hg (11 + data.length) (11 + data.length) (by omega),
      show 11 + data.length = (10 + data.length) + 1 from by omega, List.getD_cons_succ,
      List.getD_append_right _ _ _ _ (by rw [hAlen]; omega), hAlen,
      show 10 + data.length - 9 = data.length + 1 from by omega,
      List.getD_append_right _ _ _ _ (by omega),
      show data.length + 1 - data.length = 1 from by omega]
    simp
  have hdropP : buf.drop p =
      0x68 :: ((address ++ [0x68, 0x91, data.length]) ++ (data ++ [cs, 0x16])) := by
    rw [hbuf]; exact drop_replicate_append _ _ _
  have hregion : ((buf.drop p).take (10 + data.length)).sum % 256
      = frameChecksum address 0x91 data := by
    rw [hdropP]
    rw [show 10 + data.length = (9 + data.length) + 1 from by omega, List.take_succ_cons,
      show 9 + data.length = (address ++ [0x68, 0x91, data.length]).length + data.length from
        by rw [hAlen], List.take_append,
      show data.length = (data).length from rfl, List.take_left]
    simp [frameChecksum, List.sum_append, haddr]
    ring_nf
  have hfield : (buf.drop (p + 10)).take (data.length) = data := by
    have e : buf.drop (p + 10) = (buf.drop p).drop 10 := by
      rw [List.drop_drop]
    rw [e, hdropP, List.drop_succ_cons,
      show (9 : Nat) = (address ++ [0x68, 0x91, data.length]).length from by rw [hAlen],
      List.drop_left, ← show (data).length = data.length from rfl, List.take_left]
  have haddrX : (buf.drop (p + 1)).take 6 = address := by
    have e : buf.drop (p + 1) = (buf.drop p).drop 1 := by
      rw [List.drop_drop]
    rw [e, hdropP, List.drop_succ_cons, List.drop_zero, List.append_assoc,
      ← haddr, List.take_left]
  rw [check_and_parse_dlt645_frame]
  rw [hskip, h_0, h_8, h_9, hlen]
  rw [if_neg (by omega)]
  rw [if_neg (by omega)]
  rw [h_7]
  rw [if_neg (by omega)]
  rw [if_neg (by norm_num)]
  rw [if_neg (by norm_num)]
  rw [if_neg (by norm_num)]
  rw [if_neg (by norm_num)]
  rw [if_neg (by omega)]
  rw [htrail]
  rw [if_neg (by norm_num)]
  rw [hregion, hrecv, haddrX, hfield]
  by_cases hcs : frameChecksum address 0x91 data = cs
  · rw [if_neg (by omega), if_pos hcs]
  · rw [if_pos (by omega), if_neg hcs]

/-- C5 (counterexample): a well-formed control-ack response (second byte row:
control 0x9C, empty data, correct checksum 0x22, trailer 0x16) parses
successfully; flipping its checksum byte (0x22 to 0x23) still parses as the
same control-ack instead of returning `badChecksum` — the 0x9C path returns
before the checksum is ever verified. -/
theorem c5_control_ack_flip_undetected :
    check_and_parse_dlt645_frame
        [0x68, 0x12, 0x90, 0x78, 0x56, 0x34, 0x12, 0x68, 0x9C, 0x00, 0x22, 0x16]
      = ParseOutcome.controlAck 0 ∧
    check_and_parse_dlt645_frame
        [0x68, 0x12, 0x90, 0x78, 0x56, 0x34, 0x12, 0x68, 0x9C, 0x00, 0x23, 0x16]
      = ParseOutcome.controlAck 0 := by
  decide

/-- C5 (amended): restricted to read-data response frames (control code
0x91), the claim holds: changing any single byte of the data region to a
different byte value, or changing the checksum byte, makes the parser return
`badChecksum`; the unmodified frame parses to `complete`.  (Control-ack
frames, control 0x9C, are accepted without checksum verification, so flips
there are not detected.) -/
theorem c5_flip_badChecksum (p : Nat) (address d1 d2 data : List Nat) (orig v : Nat)
    (haddr : address.length = 6) (ho : orig < 256) (hv : v < 256) :
    (v ≠ orig →
      check_and_parse_dlt645_frame
          (mkResponseFrame p address 0x91 (d1 ++ v :: d2)
            (frameChecksum address 0x91 (d1 ++ orig :: d2)))
        = ParseOutcome.badChecksum) ∧
    (v ≠ frameChecksum address 0x91 data →
      check_and_parse_dlt645_frame (mkResponseFrame p address 0x91 data v)
        = ParseOutcome.badChecksum) ∧
    check_and_parse_dlt645_frame
        (mkResponseFrame p address 0x91 data (frameChecksum address 0x91 data))
      = ParseOutcome.complete address (unscramble_dlt645_data data) := by
  refine ⟨?_, ?_, ?_⟩
  · intro hne
    rw [parse_response91 _ _ _ _ haddr, if_neg]
    unfold frameChecksum
    simp only [List.sum_append, List.sum_cons, List.length_append, List.length_cons]
    omega
  · intro hne
    rw [parse_response91 _ _ _ _ haddr, if_neg (fun h => hne h.symm)]
  · rw [parse_response91 _ _ _ _ haddr, if_pos rfl]

/-- C5 witness: the amended theorem at a one-byte data field, flipping
0x35 to 0x36, with a 1-byte preamble and a concrete unicast address. -/
theorem c5_flip_badChecksum_witness :
    ((0x36 : Nat) ≠ 0x35 →
      check_and_parse_dlt645_frame
          (mkResponseFrame 1 [0x12, 0x90, 0x78, 0x56, 0x34, 0x12] 0x91 ([] ++ 0x36 :: [])
            (frameChecksum [0x12, 0x90, 0x78, 0x56, 0x34, 0x12] 0x91 ([] ++ 0x35 :: [])))
        = ParseOutcome.badChecksum) ∧
    ((0x36 : Nat) ≠ frameChecksum [0x12, 0x90, 0x78, 0x56, 0x34, 0x12] 0x91 [0x35] →
      check_and_parse_dlt645_frame
          (mkResponseFrame 1 [0x12, 0x90, 0x78, 0x56, 0x34, 0x12] 0x91 [0x35] 0x36)
        = ParseOutcome.badChecksum) ∧
    check_and_parse_dlt645_frame
        (mkResponseFrame 1 [0x12, 0x90, 0x78, 0x56, 0x34, 0x12] 0x91 [0x35]
          (frameChecksum [0x12, 0x90, 0x78, 0x56, 0x34, 0x12] 0x91 [0x35]))
      = ParseOutcome.complete [0x12, 0x90, 0x78, 0x56, 0x34, 0x12]
          (unscramble_dlt645_data [0x35]) :=
  c5_flip_badChecksum 1 [0x12, 0x90, 0x78, 0x56, 0x34, 0x12] [] [] [0x35] 0x35 0x36
    (by decide) (by decide) (by decide)

/-! ## C6 / C7: timeout classification and baud-rate cycling. -/

/-- Timeout configuration (src/dlt645.cpp `setup()` lines 79-80 and
src/dlt645.h lines 322-324): `frame_timeout_ms_` defaults to 1000 ms,
`device_discovery_timeout_ms_` to 2000 ms. -/
structure TimeoutConfig where
  frameTimeoutMs : Nat
  deviceDiscoveryTimeoutMs : Nat
deriving DecidableEq

/-- The defaults set in `setup()`. -/
def defaultTimeouts : TimeoutConfig :=
  { frameTimeoutMs := 1000, deviceDiscoveryTimeoutMs := 2000 }

/-- Send decision of one `dlt645_task_func` iteration (src/dlt645.cpp lines
264-295): for the discovery request (data identifier `DEVICE_ADDRESS`
0x04000401) the flag `switch_baud_rate_when_failed_` is armed and the frame
is sent via `query_active_power_total()`, whose `send_dlt645_frame` call uses
`frame_timeout_ms_` (line 1501); every other identifier clears the flag and
also sends with `frame_timeout_ms_` (line 287).  Result: (flag, timeout
installed as `current_command_timeout_ms_`). -/
def task_send_plan (cfg : TimeoutConfig) (dataIdentifier : Nat) : Bool × Nat :=
  if dataIdentifier = 0x04000401 then (true, cfg.frameTimeoutMs)
  else (false, cfg.frameTimeoutMs)

/-- Timeout that `discover_meter_address()` (line 1455) would pass to
`send_dlt645_frame`; its only call site in the task loop is compiled out
(`#if 0`, lines 270-275), so this budget is never used by the worker. -/
def discover_meter_address_timeout (cfg : TimeoutConfig) : Nat :=
  cfg.deviceDiscoveryTimeoutMs

/-- C6 (counterexample): with the default budgets, the discovery-class
request is sent with the normal 1000 ms budget, not with the 2000 ms
discovery budget. -/
theorem c6_discovery_sent_with_normal_timeout :
    (task_send_plan defaultTimeouts 0x04000401).2 = 1000 ∧
      defaultTimeouts.deviceDiscoveryTimeoutMs = 2000 ∧
      (task_send_plan defaultTimeouts 0x04000401).2
        ≠ defaultTimeouts.deviceDiscoveryTimeoutMs := by
  decide

/-- C6 (amended): every request — discovery-class included — is sent with
the normal `frame_timeout_ms_` budget; the discovery request is
distinguished only by arming the baud-switch flag.  The separate 2000 ms
discovery budget (strictly longer than the 1000 ms normal budget by default)
exists but is used only by the compiled-out `discover_meter_address` path. -/
theorem c6_all_requests_use_frame_timeout (cfg : TimeoutConfig) (di : Nat) :
    (task_send_plan cfg di).2 = cfg.frameTimeoutMs ∧
      ((task_send_plan cfg di).1 = true ↔ di = 0x04000401) ∧
      discover_meter_address_timeout cfg = cfg.deviceDiscoveryTimeoutMs ∧
      defaultTimeouts.frameTimeoutMs < defaultTimeouts.deviceDiscoveryTimeoutMs := by
  unfold task_send_plan discover_meter_address_timeout
  by_cases h : di = 0x04000401 <;> simp [h] <;> decide

/-- C6 witness: the amended theorem at the default budgets and the
total-active-power identifier. -/
theorem c6_all_requests_use_frame_timeout_witness :
    (task_send_plan defaultTimeouts 0x02030000).2 = defaultTimeouts.frameTimeoutMs ∧
      ((task_send_plan defaultTimeouts 0x02030000).1 = true ↔ (0x02030000 : Nat) = 0x04000401) ∧
      discover_meter_address_timeout defaultTimeouts
        = defaultTimeouts.deviceDiscoveryTimeoutMs ∧
      defaultTimeouts.frameTimeoutMs < defaultTimeouts.deviceDiscoveryTimeoutMs :=
  c6_all_requests_use_frame_timeout defaultTimeouts 0x02030000

/-- Retry-governor fields touched by the timeout path of
`process_uart_data` (src/dlt645.h lines 315-332): baud index, candidate
list, the per-request baud-switch flag, and the response buffer. -/
structure RetryState where
  currentBaudRateIndex : Nat
  baudRateList : List Int
  switchBaudRateWhenFailed : Bool
  responseBuffer : List Nat
deriving DecidableEq

/-- `cycle_to_next_baud_rate()` (src/dlt645.cpp lines 530-543): advance the
index by one modulo the candidate-list length. -/
def cycle_to_next_baud_rate (idx : Nat) (baudRateList : List Int) : Nat :=
  (idx + 1) % baudRateList.length

/-- Timeout branch of `process_uart_data()` (lines 600-613): no first byte
arrived within the budget, so the response buffer is cleared and — only when
`switch_baud_rate_when_failed_` is set — the baud-rate index cycles. -/
def process_uart_data_timeout (st : RetryState) : RetryState :=
  { st with
    responseBuffer := []
    currentBaudRateIndex :=
      if st.switchBaudRateWhenFailed then
        cycle_to_next_baud_rate st.currentBaudRateIndex st.baudRateList
      else st.currentBaudRateIndex }

/-- C7: a read timeout advances the baud index by exactly one cyclic
position when the outstanding request armed the baud-switch flag (which the
task loop does exactly for the discovery request) and leaves it unchanged
otherwise; two discovery timeouts on the list [9600, 4800, 2400, 1200] from
index 0 end at index 2, whose entry is 2400. -/
theorem c7_timeout_baud_cycling (st : RetryState) (cfg : TimeoutConfig) (di : Nat) :
    (process_uart_data_timeout st).currentBaudRateIndex =
      (if st.switchBaudRateWhenFailed then
        (st.currentBaudRateIndex + 1) % st.baudRateList.length
       else st.currentBaudRateIndex) ∧
      ((task_send_plan cfg di).1 = true ↔ di = 0x04000401) ∧
      (st.switchBaudRateWhenFailed = false →
        (process_uart_data_timeout st).currentBaudRateIndex = st.currentBaudRateIndex) ∧
      (process_uart_data_timeout (process_uart_data_timeout
          { currentBaudRateIndex := 0
            baudRateList := [9600, 4800, 2400, 1200]
            switchBaudRateWhenFailed := true
            responseBuffer := [] })).currentBaudRateIndex = 2 ∧
      ([9600, 4800, 2400, 1200] : List Int).getD 2 0 = 2400 := by
  refine ⟨rfl, ?_, ?_, by decide, by decide⟩
  · unfold task_send_plan
    by_cases h : di = 0x04000401 <;> simp [h]
  · intro h
    simp [process_uart_data_timeout, h]

/-- C7 witness: the theorem at a concrete non-discovery state (flag down,
index 3) with the frequency identifier in flight. -/
theorem c7_timeout_baud_cycling_witness :
    (process_uart_data_timeout
        { currentBaudRateIndex := 3
          baudRateList := [1200, 2400, 4800, 9600]
          switchBaudRateWhenFailed := false
          responseBuffer := [0xFE] }).currentBaudRateIndex =
      (if ({ currentBaudRateIndex := 3
             baudRateList := [1200, 2400, 4800, 9600]
             switchBaudRateWhenFailed := false
             responseBuffer := [0xFE] } : RetryState).switchBaudRateWhenFailed then
        (3 + 1) % ([1200, 2400, 4800, 9600] : List Int).length
       else 3) ∧
      ((task_send_plan defaultTimeouts 0x02800002).1 = true ↔ (0x02800002 : Nat) = 0x04000401) ∧
      (({ currentBaudRateIndex := 3
          baudRateList := [1200, 2400, 4800, 9600]
          switchBaudRateWhenFailed := false
          responseBuffer := [0xFE] } : RetryState).switchBaudRateWhenFailed = false →
        (process_uart_data_timeout
            { currentBaudRateIndex := 3
              baudRateList := [1200, 2400, 4800, 9600]
              switchBaudRateWhenFailed := false
              responseBuffer := [0xFE] }).currentBaudRateIndex = 3) ∧
      (process_uart_data_timeout (process_uart_data_timeout
          { currentBaudRateIndex := 0
            baudRateList := [9600, 4800, 2400, 1200]
            switchBaudRateWhenFailed := true
            responseBuffer := [] })).currentBaudRateIndex = 2 ∧
      ([9600, 4800, 2400, 1200] : List Int).getD 2 0 = 2400 :=
  c7_timeout_baud_cycling
    { currentBaudRateIndex := 3
      baudRateList := [1200, 2400, 4800, 9600]
      switchBaudRateWhenFailed := false
      responseBuffer := [0xFE] }
    defaultTimeouts 0x02800002

end DLT645
